import Mathlib

/-
Verification of the screenshot relocation logic of cosmic-screenshot
(src/main.rs), as a shallow embedding.

The program resolves a destination directory, asks the desktop portal for a
screenshot, and relocates the temporary file the portal produced into the
destination: by a rename when source and destination live on the same
filesystem device, by a copy followed by a removal of the source otherwise.

The filesystem is modelled as an explicit state (`FsState`) holding file
contents, the device identifier the `stat` of each path would report, and
deny-lists injecting write and remove failures (an unwritable destination,
an unremovable temporary).  Each primitive the code calls (`fs::metadata`,
`fs::copy`, `fs::remove_file`, `fs::rename`) becomes a function on that
state, and the relocation routine additionally returns the list of
primitive calls it executed (`FsOp` trace), so that claims about which
operations run — and in which order — can be stated.

The portal and the notification service are external collaborators; their
outcomes are inputs (`Except AshpdError Uri`, `Except ZbusError Unit`).
`src/error.rs` is declared by `mod error;` but is not part of the sources;
the `Error` type is reconstructed from the constructors `src/main.rs`
applies, and its two methods (`cancelled`, `to_user_facing`) are modelled
from the spec, as marked on their doc comments.
-/

namespace CosmicScreenshot

abbrev Path := String

/-- Association-list lookup (first binding wins), used for the finite maps
of the filesystem state. -/
def lookupKey {A : Type} : List (Path × A) → Path → Option A
  | [], _ => none
  | (k, v) :: rest, key => if key = k then some v else lookupKey rest key

/-- Remove every binding of a key from an association list. -/
def eraseKey {A : Type} : List (Path × A) → Path → List (Path × A)
  | [], _ => []
  | (k, v) :: rest, key =>
    if k = key then eraseKey rest key else (k, v) :: eraseKey rest key

/-- Set the binding of a key in an association list. -/
def setKey {A : Type} (l : List (Path × A)) (k : Path) (v : A) : List (Path × A) :=
  (k, v) :: eraseKey l k

/-- Abstract I/O error (`std::io::Error`): only its identity matters. -/
inductive IoError where
  | notFound
  | permissionDenied
  | other (code : Nat)
deriving DecidableEq

/-- Result of `fs::metadata`; the program only reads `.dev()`. -/
structure Metadata where
  dev : Nat
deriving DecidableEq

/-- Filesystem state.  `contents` maps existing regular files to an abstract
content identifier; `devs` is the device identifier `stat` reports for a
path (files and directories alike; a missing entry makes `fs::metadata`
fail); `dirPaths` lists the paths that are directories (`Path::is_dir`);
`denyWrite` are destination paths at which creating a file fails
(unwritable destination); `denyRemove` are paths whose removal fails.
`devs` is the stat oracle consulted before any mutation: the program
performs both metadata calls before its first write, so the map is not
updated by writes. -/
structure FsState where
  contents : List (Path × Nat)
  devs : List (Path × Nat)
  dirPaths : List Path
  denyWrite : List Path
  denyRemove : List Path
deriving DecidableEq

/-- One executed filesystem primitive, for the relocation trace. -/
inductive FsOp where
  | metadataOp (p : Path)
  | copyOp (src dst : Path)
  | removeOp (p : Path)
  | renameOp (src dst : Path)
deriving DecidableEq

/-- `Path::is_dir` (src/main.rs line 91). -/
def fsIsDir (fs : FsState) (p : Path) : Bool :=
  fs.dirPaths.contains p

/-- `fs::metadata` as the program uses it (only the device id is read). -/
def fsMetadata (fs : FsState) (p : Path) : Except IoError Metadata :=
  match lookupKey fs.devs p with
  | some d => .ok ⟨d⟩
  | none => .error .notFound

/-- `fs::copy src dst`: fails if the source does not exist or the
destination is unwritable; otherwise the destination holds the source's
content. -/
def fsCopy (fs : FsState) (src dst : Path) : Except IoError FsState :=
  match lookupKey fs.contents src with
  | none => .error .notFound
  | some c =>
    if fs.denyWrite.contains dst then .error .permissionDenied
    else .ok { fs with contents := setKey fs.contents dst c }

/-- `fs::remove_file p`: fails if the file does not exist or its removal is
denied; otherwise the file is gone. -/
def fsRemoveFile (fs : FsState) (p : Path) : Except IoError FsState :=
  match lookupKey fs.contents p with
  | none => .error .notFound
  | some _ =>
    if fs.denyRemove.contains p then .error .permissionDenied
    else .ok { fs with contents := eraseKey fs.contents p }

/-- `fs::rename src dst`: fails if the source does not exist, the source
cannot be unlinked, or the destination is unwritable; otherwise the file
moves to the destination. -/
def fsRename (fs : FsState) (src dst : Path) : Except IoError FsState :=
  match lookupKey fs.contents src with
  | none => .error .notFound
  | some c =>
    if fs.denyRemove.contains src then .error .permissionDenied
    else if fs.denyWrite.contains dst then .error .permissionDenied
    else .ok { fs with contents := setKey (eraseKey fs.contents src) dst c }

/-- `zbus::Error`, reduced to the constructors the program distinguishes. -/
inductive ZbusError where
  | unsupported
  | other (code : Nat)
deriving DecidableEq

/-- `ashpd::Error`, reduced to the constructors the program distinguishes:
a wrapped zbus error (line 149), the user-cancellation response, anything
else. -/
inductive AshpdError where
  | zbus (e : ZbusError)
  | cancelled
  | other (code : Nat)
deriving DecidableEq

/-- The `Error` enum of the absent `src/error.rs`, reconstructed from the
constructors `src/main.rs` applies: `Error::Ashpd` (lines 101, 102, 149 via
`?` and the non-file branch), `Error::Notify` (send_notify),
`Error::MissingSaveDirectory` (line 93), `Error::SaveScreenshot` with an
underlying I/O error and a static context string (lines 113-140). -/
inductive Error where
  | ashpd (e : AshpdError)
  | notify (e : ZbusError)
  | missingSaveDirectory (dir : Option Path)
  | saveScreenshot (error : IoError) (context : String)
deriving DecidableEq

/-- Modelled from the spec: `Error::cancelled` lives in the absent
`src/error.rs`; spec section 5 and section 7 make cancellation the portal's
user-cancellation outcome (`PortalCancelled`), distinct from every other
error kind, so the predicate holds exactly on the wrapped portal
cancellation error. -/
def Error.cancelled : Error → Bool
  | .ashpd .cancelled => true
  | _ => false

/-- Modelled from the spec: `Error::to_user_facing` lives in the absent
`src/error.rs`; the spec only requires a human-readable message per error
kind (section 7). -/
def Error.to_user_facing : Error → String
  | .ashpd .cancelled => "The screenshot request was cancelled"
  | .ashpd _ => "The screenshot portal reported an error"
  | .notify _ => "Posting the notification failed"
  | .missingSaveDirectory none => "No directory to save the screenshot to"
  | .missingSaveDirectory (some d) => "No directory to save the screenshot to: " ++ d
  | .saveScreenshot _ context => "Failed to save the screenshot while " ++ context

/-- Modelled from the spec: the spec's `UnsupportedScheme` error kind
(section 7) names the value src/main.rs line 149 returns for a non-file
scheme, `Error::Ashpd(ashpd::Error::Zbus(zbus::Error::Unsupported))` — as
with the spec's `PortalCancelled`/`PortalOther` kinds, a behavioural kind
carried by the `Ashpd` constructor rather than a variant of its own. -/
def unsupportedSchemeError : Error := .ashpd (.zbus .unsupported)

/-- The command-line arguments the logic reads (clap glue out of scope). -/
structure Args where
  interactive : Bool
  modal : Bool
  notify : Bool
  save_dir : Option Path
deriving DecidableEq

/-- Ambient environment: `dirs::picture_dir()` and the formatted
`chrono::Local::now()` timestamp. -/
structure Env where
  platformPictureDir : Option Path
  now : String
deriving DecidableEq

/-- The URI of the portal response; the program reads `scheme()` and
`path()`. -/
structure Uri where
  scheme : String
  path : Path
deriving DecidableEq

/-- `format!("Screenshot_{}.png", date.format(..))` (line 110). -/
def screenshotFilename (env : Env) : String :=
  "Screenshot_" ++ env.now ++ ".png"

/-- `PathBuf::join` for the relative filename the program generates. -/
def pathJoin (dir file : Path) : Path :=
  dir ++ "/" ++ file

/-- `picture_dir.join(filename)` (line 111). -/
def destPath (picture_dir : Path) (env : Env) : Path :=
  pathJoin picture_dir (screenshotFilename env)

/-- Lines 87-95: in interactive mode no destination is resolved; otherwise
the supplied `--save-dir` is kept only if it is a directory, the platform
pictures directory is the fallback, and if neither is available the result
is `MissingSaveDirectory` carrying the originally supplied option. -/
def resolvePictureDir (args : Args) (env : Env) (fs : FsState) :
    Except Error (Option Path) :=
  if args.interactive then .ok none
  else
    match
      (match args.save_dir with
       | some d => if fsIsDir fs d then some d else env.platformPictureDir
       | none => env.platformPictureDir)
    with
    | some d => .ok (some d)
    | none => .error (.missingSaveDirectory args.save_dir)

/-- Lines 104-151: handling of the portal response.  Returns the program
result, the filesystem after the routine, and the trace of filesystem
primitives executed by the relocation. -/
def handleResponse (pictureDir : Option Path) (env : Env) (uri : Uri)
    (fs : FsState) : Except Error Path × FsState × List FsOp :=
  if uri.scheme = "file" then
    match pictureDir with
    | some picture_dir =>
      match fsMetadata fs picture_dir with
      | .error e =>
        (.error (.saveScreenshot e "metadata for screenshot destination"), fs,
         [.metadataOp picture_dir])
      | .ok destMeta =>
        match fsMetadata fs uri.path with
        | .error e =>
          (.error (.saveScreenshot e "metadata for temporary path"), fs,
           [.metadataOp picture_dir, .metadataOp uri.path])
        | .ok srcMeta =>
          if destMeta.dev ≠ srcMeta.dev then
            match fsCopy fs uri.path (destPath picture_dir env) with
            | .error e =>
              (.error (.saveScreenshot e "copying screenshot"), fs,
               [.metadataOp picture_dir, .metadataOp uri.path,
                .copyOp uri.path (destPath picture_dir env)])
            | .ok fs1 =>
              match fsRemoveFile fs1 uri.path with
              | .error e =>
                (.error (.saveScreenshot e "removing temporary screenshot"), fs1,
                 [.metadataOp picture_dir, .metadataOp uri.path,
                  .copyOp uri.path (destPath picture_dir env), .removeOp uri.path])
              | .ok fs2 =>
                (.ok (destPath picture_dir env), fs2,
                 [.metadataOp picture_dir, .metadataOp uri.path,
                  .copyOp uri.path (destPath picture_dir env), .removeOp uri.path])
          else
            match fsRename fs uri.path (destPath picture_dir env) with
            | .error e =>
              (.error (.saveScreenshot e "moving screenshot"), fs,
               [.metadataOp picture_dir, .metadataOp uri.path,
                .renameOp uri.path (destPath picture_dir env)])
            | .ok fs1 =>
              (.ok (destPath picture_dir env), fs1,
               [.metadataOp picture_dir, .metadataOp uri.path,
                .renameOp uri.path (destPath picture_dir env)])
    | none => (.ok uri.path, fs, [])
  else
    (.error unsupportedSchemeError, fs, [])

/-- Lines 86-152: `request_screenshot`.  The portal call is external; its
outcome is the `portal` input, where `.error .cancelled` is the
user-cancellation response and any portal error is wrapped by the `?`
conversion into `Error.ashpd`.  A `MissingSaveDirectory` failure
short-circuits before the portal call (`?` on line 95). -/
def request_screenshot (args : Args) (env : Env)
    (portal : Except AshpdError Uri) (fs : FsState) :
    Except Error Path × FsState × List FsOp :=
  match resolvePictureDir args env fs with
  | .error e => (.error e, fs, [])
  | .ok pictureDir =>
    match portal with
    | .error e => (.error (.ashpd e), fs, [])
    | .ok uri => handleResponse pictureDir env uri fs

/-- Lines 165-179: the `(summary, body)` pair `main` reports. -/
def reportOutcome (result : Except Error Path) : String × String :=
  match result with
  | .ok path => ("Screenshot captured", path)
  | .error e =>
    if !e.cancelled then ("Screenshot failed", e.to_user_facing)
    else ("Screenshot cancelled", "")

/-- What a run of `main` produces.  `notification` is the argument pair of
the `send_notify` call when `--notify` is enabled; `loggedNotifyFailure`
records that a notification failure was only logged; `exitCode` is the
process exit status — `main` returns unit, so it is 0 on every path. -/
structure MainResult where
  summary : String
  body : String
  finalFs : FsState
  opsTrace : List FsOp
  notification : Option (String × String)
  loggedNotifyFailure : Bool
  exitCode : Nat
deriving DecidableEq

/-- Lines 154-186: `main`.  The notification service is external; its
outcome is the `notifyOutcome` input. -/
def mainRun (args : Args) (env : Env) (portal : Except AshpdError Uri)
    (fs : FsState) (notifyOutcome : Except ZbusError Unit) : MainResult :=
  let r := request_screenshot args env portal fs
  let sb := reportOutcome r.1
  { summary := sb.1
    body := sb.2
    finalFs := r.2.1
    opsTrace := r.2.2
    notification := if args.notify then some sb else none
    loggedNotifyFailure :=
      args.notify && (match notifyOutcome with
                      | .error _ => true
                      | .ok _ => false)
    exitCode := 0 }

/-! Association-list lemmas shared by the claim proofs. -/

theorem lookupKey_eraseKey {A : Type} (l : List (Path × A)) (k key : Path) :
    lookupKey (eraseKey l k) key = if key = k then none else lookupKey l key := by
  induction l with
  | nil => simp [eraseKey, lookupKey]
  | cons hd tl ih =>
    obtain ⟨k', v⟩ := hd
    by_cases hk : k' = k
    · subst hk
      by_cases hkey : key = k'
      · subst hkey
        simpa [eraseKey, lookupKey] using ih
      · simp [eraseKey, lookupKey, hkey, ih]
    · by_cases hkey : key = k'
      · subst hkey
        simp [eraseKey, lookupKey, hk, Ne.symm hk]
      · simp [eraseKey, lookupKey, hk, hkey, ih]

theorem lookupKey_setKey {A : Type} (l : List (Path × A)) (k key : Path) (v : A) :
    lookupKey (setKey l k v) key = if key = k then some v else lookupKey l key := by
  by_cases h : key = k
  · simp [setKey, lookupKey, h]
  · simp [setKey, lookupKey, h, lookupKey_eraseKey]

/-- Claim C1: for every portal response whose URI scheme is not "file",
`request_screenshot` fails with the unsupported-scheme error and performs no
filesystem mutation — the relocation trace is empty (no metadata lookup,
copy, remove or rename executes) and the filesystem state is returned
unchanged. -/
theorem c1_unsupported_scheme_no_mutation (args : Args) (env : Env)
    (fs : FsState) (uri : Uri) (pd : Option Path)
    (hres : resolvePictureDir args env fs = .ok pd)
    (hscheme : uri.scheme ≠ "file") :
    request_screenshot args env (.ok uri) fs =
      (.error unsupportedSchemeError, fs, []) := by
  simp [request_screenshot, hres, handleResponse, hscheme]

theorem c1_unsupported_scheme_no_mutation_witness :
    resolvePictureDir ⟨true, true, true, none⟩ ⟨none, "T"⟩ ⟨[], [], [], [], []⟩ =
      .ok none ∧
    (Uri.mk "http" "/tmp/s.png").scheme ≠ "file" ∧
    request_screenshot ⟨true, true, true, none⟩ ⟨none, "T"⟩
        (.ok ⟨"http", "/tmp/s.png"⟩) ⟨[], [], [], [], []⟩ =
      (.error unsupportedSchemeError, ⟨[], [], [], [], []⟩, []) :=
  ⟨rfl, by decide,
   c1_unsupported_scheme_no_mutation ⟨true, true, true, none⟩ ⟨none, "T"⟩
     ⟨[], [], [], [], []⟩ ⟨"http", "/tmp/s.png"⟩ none rfl (by decide)⟩

/-- Claim C2: for a destination directory on the same filesystem device as
the temporary file (both metadata lookups report the same device, the
temporary file exists, the destination is writable and is a different path),
relocation executes exactly the two metadata lookups followed by a single
rename — no copy — the returned success value is the destination path, and
afterwards the temporary path no longer exists. -/
theorem c2_same_device_single_rename (env : Env) (fs : FsState)
    (d tmp : Path) (dv c : Nat)
    (hd : lookupKey fs.devs d = some dv)
    (ht : lookupKey fs.devs tmp = some dv)
    (hc : lookupKey fs.contents tmp = some c)
    (hrm : fs.denyRemove.contains tmp = false)
    (hw : fs.denyWrite.contains (destPath d env) = false)
    (hne : destPath d env ≠ tmp) :
    (handleResponse (some d) env ⟨"file", tmp⟩ fs).2.2 =
      [.metadataOp d, .metadataOp tmp, .renameOp tmp (destPath d env)] ∧
    (handleResponse (some d) env ⟨"file", tmp⟩ fs).1 = .ok (destPath d env) ∧
    lookupKey (handleResponse (some d) env ⟨"file", tmp⟩ fs).2.1.contents tmp =
      none ∧
    lookupKey (handleResponse (some d) env ⟨"file", tmp⟩ fs).2.1.contents
      (destPath d env) = some c := by
  have hrm' : tmp ∉ fs.denyRemove := by simpa using hrm
  have hw' : destPath d env ∉ fs.denyWrite := by simpa using hw
  have hmd : fsMetadata fs d = .ok ⟨dv⟩ := by simp [fsMetadata, hd]
  have hmt : fsMetadata fs tmp = .ok ⟨dv⟩ := by simp [fsMetadata, ht]
  have hren : fsRename fs tmp (destPath d env) =
      .ok { fs with
            contents := setKey (eraseKey fs.contents tmp) (destPath d env) c } := by
    simp [fsRename, hc, hrm', hw']
  simp [handleResponse, hmd, hmt, hren, lookupKey_setKey, lookupKey_eraseKey,
    Ne.symm hne]

theorem c2_same_device_single_rename_witness :
    lookupKey (FsState.mk [("/tmp/s.png", 7)] [("/pics", 1), ("/tmp/s.png", 1)]
        ["/pics"] [] []).devs "/pics" = some 1 ∧
    ((handleResponse (some "/pics") ⟨some "/pics", "T"⟩ ⟨"file", "/tmp/s.png"⟩
        ⟨[("/tmp/s.png", 7)], [("/pics", 1), ("/tmp/s.png", 1)], ["/pics"], [], []⟩).2.2 =
      [.metadataOp "/pics", .metadataOp "/tmp/s.png",
       .renameOp "/tmp/s.png" (destPath "/pics" ⟨some "/pics", "T"⟩)] ∧
     (handleResponse (some "/pics") ⟨some "/pics", "T"⟩ ⟨"file", "/tmp/s.png"⟩
        ⟨[("/tmp/s.png", 7)], [("/pics", 1), ("/tmp/s.png", 1)], ["/pics"], [], []⟩).1 =
      .ok (destPath "/pics" ⟨some "/pics", "T"⟩) ∧
     lookupKey (handleResponse (some "/pics") ⟨some "/pics", "T"⟩
        ⟨"file", "/tmp/s.png"⟩
        ⟨[("/tmp/s.png", 7)], [("/pics", 1), ("/tmp/s.png", 1)], ["/pics"], [], []⟩).2.1.contents
        "/tmp/s.png" = none ∧
     lookupKey (handleResponse (some "/pics") ⟨some "/pics", "T"⟩
        ⟨"file", "/tmp/s.png"⟩
        ⟨[("/tmp/s.png", 7)], [("/pics", 1), ("/tmp/s.png", 1)], ["/pics"], [], []⟩).2.1.contents
        (destPath "/pics" ⟨some "/pics", "T"⟩) = some 7) :=
  ⟨by decide,
   c2_same_device_single_rename ⟨some "/pics", "T"⟩
     ⟨[("/tmp/s.png", 7)], [("/pics", 1), ("/tmp/s.png", 1)], ["/pics"], [], []⟩
     "/pics" "/tmp/s.png" 1 7 (by decide) (by decide) (by decide) (by decide)
     (by decide) (by decide)⟩

/-- Claim C3: for a destination directory on a different filesystem device
than the temporary file (the two metadata lookups report different devices,
the temporary file exists, the destination is writable and is a different
path, and the removal is not denied), relocation executes the two metadata
lookups, then a copy of the source to the destination, then a removal of
the source; afterwards the destination holds the image content, the
temporary file is gone, and the returned success value is the destination
path. -/
theorem c3_cross_device_copy_delete (env : Env) (fs : FsState)
    (d tmp : Path) (dv1 dv2 c : Nat)
    (hd : lookupKey fs.devs d = some dv1)
    (ht : lookupKey fs.devs tmp = some dv2)
    (hdev : dv1 ≠ dv2)
    (hc : lookupKey fs.contents tmp = some c)
    (hrm : fs.denyRemove.contains tmp = false)
    (hw : fs.denyWrite.contains (destPath d env) = false)
    (hne : destPath d env ≠ tmp) :
    (handleResponse (some d) env ⟨"file", tmp⟩ fs).2.2 =
      [.metadataOp d, .metadataOp tmp, .copyOp tmp (destPath d env),
       .removeOp tmp] ∧
    (handleResponse (some d) env ⟨"file", tmp⟩ fs).1 = .ok (destPath d env) ∧
    lookupKey (handleResponse (some d) env ⟨"file", tmp⟩ fs).2.1.contents
      (destPath d env) = some c ∧
    lookupKey (handleResponse (some d) env ⟨"file", tmp⟩ fs).2.1.contents tmp =
      none := by
  have hrm' : tmp ∉ fs.denyRemove := by simpa using hrm
  have hw' : destPath d env ∉ fs.denyWrite := by simpa using hw
  have hmd : fsMetadata fs d = .ok ⟨dv1⟩ := by simp [fsMetadata, hd]
  have hmt : fsMetadata fs tmp = .ok ⟨dv2⟩ := by simp [fsMetadata, ht]
  have hcopy : fsCopy fs tmp (destPath d env) =
      .ok { fs with contents := setKey fs.contents (destPath d env) c } := by
    simp [fsCopy, hc, hw']
  have hlook :
      lookupKey (setKey fs.contents (destPath d env) c) tmp = some c := by
    simp [lookupKey_setKey, Ne.symm hne, hc]
  have hrem : fsRemoveFile
      { fs with contents := setKey fs.contents (destPath d env) c } tmp =
      .ok { fs with
            contents := eraseKey (setKey fs.contents (destPath d env) c) tmp } := by
    simp [fsRemoveFile, hlook, hrm']
  simp [handleResponse, hmd, hmt, hdev, hcopy, hrem, lookupKey_setKey,
    lookupKey_eraseKey, hne, Ne.symm hne, hc]

theorem c3_cross_device_copy_delete_witness :
    lookupKey (FsState.mk [("/tmp/s.png", 7)] [("/pics", 1), ("/tmp/s.png", 2)]
        ["/pics"] [] []).devs "/pics" = some 1 ∧
    ((handleResponse (some "/pics") ⟨some "/pics", "T"⟩ ⟨"file", "/tmp/s.png"⟩
        ⟨[("/tmp/s.png", 7)], [("/pics", 1), ("/tmp/s.png", 2)], ["/pics"], [], []⟩).2.2 =
      [.metadataOp "/pics", .metadataOp "/tmp/s.png",
       .copyOp "/tmp/s.png" (destPath "/pics" ⟨some "/pics", "T"⟩),
       .removeOp "/tmp/s.png"] ∧
     (handleResponse (some "/pics") ⟨some "/pics", "T"⟩ ⟨"file", "/tmp/s.png"⟩
        ⟨[("/tmp/s.png", 7)], [("/pics", 1), ("/tmp/s.png", 2)], ["/pics"], [], []⟩).1 =
      .ok (destPath "/pics" ⟨some "/pics", "T"⟩) ∧
     lookupKey (handleResponse (some "/pics") ⟨some "/pics", "T"⟩
        ⟨"file", "/tmp/s.png"⟩
        ⟨[("/tmp/s.png", 7)], [("/pics", 1), ("/tmp/s.png", 2)], ["/pics"], [], []⟩).2.1.contents
        (destPath "/pics" ⟨some "/pics", "T"⟩) = some 7 ∧
     lookupKey (handleResponse (some "/pics") ⟨some "/pics", "T"⟩
        ⟨"file", "/tmp/s.png"⟩
        ⟨[("/tmp/s.png", 7)], [("/pics", 1), ("/tmp/s.png", 2)], ["/pics"], [], []⟩).2.1.contents
        "/tmp/s.png" = none) :=
  ⟨by decide,
   c3_cross_device_copy_delete ⟨some "/pics", "T"⟩
     ⟨[("/tmp/s.png", 7)], [("/pics", 1), ("/tmp/s.png", 2)], ["/pics"], [], []⟩
     "/pics" "/tmp/s.png" 1 2 7 (by decide) (by decide) (by decide) (by decide)
     (by decide) (by decide) (by decide)⟩

/-- Claim C10: the cross-device relocation is not atomic with respect to
errors — when the copy to the destination succeeds but removing the
temporary file fails (its removal is denied), `handleResponse` returns a
`saveScreenshot` error even though the destination already holds the image
content, and the temporary file still exists. -/
theorem c10_copy_succeeds_remove_fails (env : Env) (fs : FsState)
    (d tmp : Path) (dv1 dv2 c : Nat)
    (hd : lookupKey fs.devs d = some dv1)
    (ht : lookupKey fs.devs tmp = some dv2)
    (hdev : dv1 ≠ dv2)
    (hc : lookupKey fs.contents tmp = some c)
    (hrm : fs.denyRemove.contains tmp = true)
    (hw : fs.denyWrite.contains (destPath d env) = false)
    (hne : destPath d env ≠ tmp) :
    (handleResponse (some d) env ⟨"file", tmp⟩ fs).1 =
      .error (.saveScreenshot .permissionDenied
        "removing temporary screenshot") ∧
    lookupKey (handleResponse (some d) env ⟨"file", tmp⟩ fs).2.1.contents
      (destPath d env) = some c ∧
    lookupKey (handleResponse (some d) env ⟨"file", tmp⟩ fs).2.1.contents tmp =
      some c := by
  have hrm' : tmp ∈ fs.denyRemove := by simpa using hrm
  have hw' : destPath d env ∉ fs.denyWrite := by simpa using hw
  have hmd : fsMetadata fs d = .ok ⟨dv1⟩ := by simp [fsMetadata, hd]
  have hmt : fsMetadata fs tmp = .ok ⟨dv2⟩ := by simp [fsMetadata, ht]
  have hcopy : fsCopy fs tmp (destPath d env) =
      .ok { fs with contents := setKey fs.contents (destPath d env) c } := by
    simp [fsCopy, hc, hw']
  have hlook :
      lookupKey (setKey fs.contents (destPath d env) c) tmp = some c := by
    simp [lookupKey_setKey, Ne.symm hne, hc]
  have hrem : fsRemoveFile
      { fs with contents := setKey fs.contents (destPath d env) c } tmp =
      .error .permissionDenied := by
    simp [fsRemoveFile, hlook, hrm']
  simp [handleResponse, hmd, hmt, hdev, hcopy, hrem, lookupKey_setKey, hc,
    Ne.symm hne]

theorem c10_copy_succeeds_remove_fails_witness :
    lookupKey (FsState.mk [("/tmp/s.png", 7)] [("/pics", 1), ("/tmp/s.png", 2)]
        ["/pics"] [] ["/tmp/s.png"]).contents "/tmp/s.png" = some 7 ∧
    ((handleResponse (some "/pics") ⟨some "/pics", "T"⟩ ⟨"file", "/tmp/s.png"⟩
        ⟨[("/tmp/s.png", 7)], [("/pics", 1), ("/tmp/s.png", 2)], ["/pics"], [],
         ["/tmp/s.png"]⟩).1 =
      .error (.saveScreenshot .permissionDenied
        "removing temporary screenshot") ∧
     lookupKey (handleResponse (some "/pics") ⟨some "/pics", "T"⟩
        ⟨"file", "/tmp/s.png"⟩
        ⟨[("/tmp/s.png", 7)], [("/pics", 1), ("/tmp/s.png", 2)], ["/pics"], [],
         ["/tmp/s.png"]⟩).2.1.contents
        (destPath "/pics" ⟨some "/pics", "T"⟩) = some 7 ∧
     lookupKey (handleResponse (some "/pics") ⟨some "/pics", "T"⟩
        ⟨"file", "/tmp/s.png"⟩
        ⟨[("/tmp/s.png", 7)], [("/pics", 1), ("/tmp/s.png", 2)], ["/pics"], [],
         ["/tmp/s.png"]⟩).2.1.contents "/tmp/s.png" = some 7) :=
  ⟨by decide,
   c10_copy_succeeds_remove_fails ⟨some "/pics", "T"⟩
     ⟨[("/tmp/s.png", 7)], [("/pics", 1), ("/tmp/s.png", 2)], ["/pics"], [],
      ["/tmp/s.png"]⟩
     "/pics" "/tmp/s.png" 1 2 7 (by decide) (by decide) (by decide) (by decide)
     (by decide) (by decide) (by decide)⟩

/-- Claim C4 (counterexample): an execution reaches the move — the rename is
attempted, it is in the trace — while the destination path is not writable
(creating a file there is denied), so the program did not establish
writability before mutating: the claim that the destination is writable at
the time the move is attempted is false.  The state: a same-device
destination directory that exists and passes the metadata lookup, with the
destination path on the write deny-list; the rename fails with a permission
error. -/
theorem c4_move_writability_counterexample :
    FsOp.renameOp "/tmp/s.png" "/pics/Screenshot_T.png" ∈
      (handleResponse (some "/pics") ⟨some "/pics", "T"⟩ ⟨"file", "/tmp/s.png"⟩
        ⟨[("/tmp/s.png", 7)], [("/pics", 1), ("/tmp/s.png", 1)], ["/pics"],
         ["/pics/Screenshot_T.png"], []⟩).2.2 ∧
    (FsState.mk [("/tmp/s.png", 7)] [("/pics", 1), ("/tmp/s.png", 1)] ["/pics"]
        ["/pics/Screenshot_T.png"] []).denyWrite.contains
      "/pics/Screenshot_T.png" = true ∧
    (handleResponse (some "/pics") ⟨some "/pics", "T"⟩ ⟨"file", "/tmp/s.png"⟩
        ⟨[("/tmp/s.png", 7)], [("/pics", 1), ("/tmp/s.png", 1)], ["/pics"],
         ["/pics/Screenshot_T.png"], []⟩).1 =
      .error (.saveScreenshot .permissionDenied "moving screenshot") := by
  refine ⟨by decide, by decide, ?_⟩
  rfl

/-- Claim C4 (amended): in every execution that reaches a move (a rename or
a copy appears in the relocation trace), the destination directory's
metadata lookup and the temporary file's metadata lookup have both
succeeded before the move, so the destination path exists at that point;
writability of the destination is not established beforehand — an
unwritable destination makes the move itself fail (see the
counterexample). -/
theorem c4_move_implies_destination_exists (pd : Option Path) (env : Env)
    (uri : Uri) (fs : FsState) (s t : Path)
    (h : FsOp.renameOp s t ∈ (handleResponse pd env uri fs).2.2 ∨
         FsOp.copyOp s t ∈ (handleResponse pd env uri fs).2.2) :
    ∃ d dm sm, pd = some d ∧ fsMetadata fs d = .ok dm ∧
      fsMetadata fs uri.path = .ok sm := by
  by_cases hscheme : uri.scheme = "file"
  · match hpd : pd with
    | none =>
      simp [handleResponse, hscheme] at h
    | some d =>
      cases hmd : fsMetadata fs d with
      | error e =>
        simp [handleResponse, hscheme, hmd] at h
      | ok dm =>
        cases hms : fsMetadata fs uri.path with
        | error e =>
          simp [handleResponse, hscheme, hmd, hms] at h
        | ok sm => exact ⟨d, dm, sm, rfl, hmd, rfl⟩
  · simp [handleResponse, hscheme] at h

theorem c4_move_implies_destination_exists_witness :
    ∃ d dm sm, (some "/pics" : Option Path) = some d ∧
      fsMetadata ⟨[("/tmp/s.png", 7)], [("/pics", 1), ("/tmp/s.png", 1)],
        ["/pics"], [], []⟩ d = .ok dm ∧
      fsMetadata ⟨[("/tmp/s.png", 7)], [("/pics", 1), ("/tmp/s.png", 1)],
        ["/pics"], [], []⟩ (Uri.mk "file" "/tmp/s.png").path = .ok sm :=
  c4_move_implies_destination_exists (some "/pics") ⟨some "/pics", "T"⟩
    ⟨"file", "/tmp/s.png"⟩
    ⟨[("/tmp/s.png", 7)], [("/pics", 1), ("/tmp/s.png", 1)], ["/pics"], [], []⟩
    "/tmp/s.png" "/pics/Screenshot_T.png" (Or.inl (by decide))

/-- Claim C5: when `--save-dir` is omitted and interactive mode is not
requested, the platform pictures directory is the resolved destination;
when that directory is also unavailable, `request_screenshot` fails with
`MissingSaveDirectory` — before the portal is even consulted, for every
portal outcome. -/
theorem c5_platform_pictures_fallback (args : Args) (env : Env)
    (fs : FsState) (portal : Except AshpdError Uri)
    (hi : args.interactive = false) (hs : args.save_dir = none) :
    (∀ p, env.platformPictureDir = some p →
        resolvePictureDir args env fs = .ok (some p)) ∧
    (env.platformPictureDir = none →
        request_screenshot args env portal fs =
          (.error (.missingSaveDirectory none), fs, [])) := by
  constructor
  · intro p hp
    simp [resolvePictureDir, hi, hs, hp]
  · intro hp
    simp [request_screenshot, resolvePictureDir, hi, hs, hp]

theorem c5_platform_pictures_fallback_witness :
    ((Args.mk false true true none).interactive = false ∧
     (Args.mk false true true none).save_dir = none) ∧
    resolvePictureDir ⟨false, true, true, none⟩ ⟨some "/pics", "T"⟩
      ⟨[], [], [], [], []⟩ = .ok (some "/pics") ∧
    request_screenshot ⟨false, true, true, none⟩ ⟨none, "T"⟩
        (.ok ⟨"file", "/tmp/s.png"⟩) ⟨[], [], [], [], []⟩ =
      (.error (.missingSaveDirectory none), ⟨[], [], [], [], []⟩, []) :=
  ⟨⟨rfl, rfl⟩,
   (c5_platform_pictures_fallback ⟨false, true, true, none⟩ ⟨some "/pics", "T"⟩
      ⟨[], [], [], [], []⟩ (.ok ⟨"file", "/tmp/s.png"⟩) rfl rfl).1 "/pics" rfl,
   (c5_platform_pictures_fallback ⟨false, true, true, none⟩ ⟨none, "T"⟩
      ⟨[], [], [], [], []⟩ (.ok ⟨"file", "/tmp/s.png"⟩) rfl rfl).2 rfl⟩

/-- Claim C9: when `--save-dir` is supplied but does not name an existing
directory, no error is reported for the invalid path: resolution silently
falls back to the platform pictures directory, and `MissingSaveDirectory`
(carrying the supplied path) arises only when that fallback is also
unavailable. -/
theorem c9_invalid_save_dir_silent_fallback (args : Args) (env : Env)
    (fs : FsState) (d : Path)
    (hi : args.interactive = false) (hs : args.save_dir = some d)
    (hdir : fsIsDir fs d = false) :
    (∀ p, env.platformPictureDir = some p →
        resolvePictureDir args env fs = .ok (some p)) ∧
    (env.platformPictureDir = none →
        resolvePictureDir args env fs =
          .error (.missingSaveDirectory (some d))) := by
  constructor
  · intro p hp
    simp [resolvePictureDir, hi, hs, hdir, hp]
  · intro hp
    simp [resolvePictureDir, hi, hs, hdir, hp]

theorem c9_invalid_save_dir_silent_fallback_witness :
    fsIsDir ⟨[], [], [], [], []⟩ "/nonexistent" = false ∧
    resolvePictureDir ⟨false, true, true, some "/nonexistent"⟩
      ⟨some "/pics", "T"⟩ ⟨[], [], [], [], []⟩ = .ok (some "/pics") ∧
    resolvePictureDir ⟨false, true, true, some "/nonexistent"⟩ ⟨none, "T"⟩
      ⟨[], [], [], [], []⟩ = .error (.missingSaveDirectory (some "/nonexistent")) :=
  ⟨by decide,
   (c9_invalid_save_dir_silent_fallback ⟨false, true, true, some "/nonexistent"⟩
      ⟨some "/pics", "T"⟩ ⟨[], [], [], [], []⟩ "/nonexistent" rfl rfl
      (by decide)).1 "/pics" rfl,
   (c9_invalid_save_dir_silent_fallback ⟨false, true, true, some "/nonexistent"⟩
      ⟨none, "T"⟩ ⟨[], [], [], [], []⟩ "/nonexistent" rfl rfl (by decide)).2 rfl⟩

/-- Claim C6: every failure of a filesystem primitive during relocation
surfaces as the `saveScreenshot` error carrying the underlying I/O error
together with the context label of the failing sub-step — destination
metadata, source metadata, copy, temporary removal, or rename — and the
five labels are pairwise distinct, so the label identifies the sub-step. -/
theorem c6_failure_context_labels (d tmp : Path) (env : Env) (fs : FsState) :
    (∀ e, fsMetadata fs d = .error e →
      (handleResponse (some d) env ⟨"file", tmp⟩ fs).1 =
        .error (.saveScreenshot e "metadata for screenshot destination")) ∧
    (∀ e dm, fsMetadata fs d = .ok dm → fsMetadata fs tmp = .error e →
      (handleResponse (some d) env ⟨"file", tmp⟩ fs).1 =
        .error (.saveScreenshot e "metadata for temporary path")) ∧
    (∀ e dm sm, fsMetadata fs d = .ok dm → fsMetadata fs tmp = .ok sm →
      dm.dev ≠ sm.dev → fsCopy fs tmp (destPath d env) = .error e →
      (handleResponse (some d) env ⟨"file", tmp⟩ fs).1 =
        .error (.saveScreenshot e "copying screenshot")) ∧
    (∀ e dm sm fs1, fsMetadata fs d = .ok dm → fsMetadata fs tmp = .ok sm →
      dm.dev ≠ sm.dev → fsCopy fs tmp (destPath d env) = .ok fs1 →
      fsRemoveFile fs1 tmp = .error e →
      (handleResponse (some d) env ⟨"file", tmp⟩ fs).1 =
        .error (.saveScreenshot e "removing temporary screenshot")) ∧
    (∀ e dm sm, fsMetadata fs d = .ok dm → fsMetadata fs tmp = .ok sm →
      dm.dev = sm.dev → fsRename fs tmp (destPath d env) = .error e →
      (handleResponse (some d) env ⟨"file", tmp⟩ fs).1 =
        .error (.saveScreenshot e "moving screenshot")) ∧
    (["metadata for screenshot destination", "metadata for temporary path",
      "copying screenshot", "removing temporary screenshot",
      "moving screenshot"] : List String).Nodup := by
  refine ⟨?_, ?_, ?_, ?_, ?_, by decide⟩
  · intro e h
    simp [handleResponse, h]
  · intro e dm h1 h2
    simp [handleResponse, h1, h2]
  · intro e dm sm h1 h2 hne h3
    simp [handleResponse, h1, h2, hne, h3]
  · intro e dm sm fs1 h1 h2 hne h3 h4
    simp [handleResponse, h1, h2, hne, h3, h4]
  · intro e dm sm h1 h2 heq h3
    simp [handleResponse, h1, h2, heq, h3]

theorem c6_failure_context_labels_witness :
    (handleResponse (some "/pics") ⟨some "/pics", "T"⟩ ⟨"file", "/tmp/s.png"⟩
        ⟨[("/tmp/s.png", 7)], [("/tmp/s.png", 1)], [], [], []⟩).1 =
      .error (.saveScreenshot .notFound
        "metadata for screenshot destination") ∧
    (handleResponse (some "/pics") ⟨some "/pics", "T"⟩ ⟨"file", "/tmp/s.png"⟩
        ⟨[("/tmp/s.png", 7)], [("/pics", 1)], ["/pics"], [], []⟩).1 =
      .error (.saveScreenshot .notFound "metadata for temporary path") ∧
    (handleResponse (some "/pics") ⟨some "/pics", "T"⟩ ⟨"file", "/tmp/s.png"⟩
        ⟨[], [("/pics", 1), ("/tmp/s.png", 2)], ["/pics"], [], []⟩).1 =
      .error (.saveScreenshot .notFound "copying screenshot") ∧
    (handleResponse (some "/pics") ⟨some "/pics", "T"⟩ ⟨"file", "/tmp/s.png"⟩
        ⟨[("/tmp/s.png", 7)], [("/pics", 1), ("/tmp/s.png", 2)], ["/pics"], [],
         ["/tmp/s.png"]⟩).1 =
      .error (.saveScreenshot .permissionDenied
        "removing temporary screenshot") ∧
    (handleResponse (some "/pics") ⟨some "/pics", "T"⟩ ⟨"file", "/tmp/s.png"⟩
        ⟨[], [("/pics", 1), ("/tmp/s.png", 1)], ["/pics"], [], []⟩).1 =
      .error (.saveScreenshot .notFound "moving screenshot") :=
  ⟨(c6_failure_context_labels "/pics" "/tmp/s.png" ⟨some "/pics", "T"⟩
      ⟨[("/tmp/s.png", 7)], [("/tmp/s.png", 1)], [], [], []⟩).1 .notFound rfl,
   (c6_failure_context_labels "/pics" "/tmp/s.png" ⟨some "/pics", "T"⟩
      ⟨[("/tmp/s.png", 7)], [("/pics", 1)], ["/pics"], [], []⟩).2.1 .notFound
     ⟨1⟩ rfl rfl,
   (c6_failure_context_labels "/pics" "/tmp/s.png" ⟨some "/pics", "T"⟩
      ⟨[], [("/pics", 1), ("/tmp/s.png", 2)], ["/pics"], [], []⟩).2.2.1
     .notFound ⟨1⟩ ⟨2⟩ rfl rfl (by decide) rfl,
   (c6_failure_context_labels "/pics" "/tmp/s.png" ⟨some "/pics", "T"⟩
      ⟨[("/tmp/s.png", 7)], [("/pics", 1), ("/tmp/s.png", 2)], ["/pics"], [],
       ["/tmp/s.png"]⟩).2.2.2.1 .permissionDenied ⟨1⟩ ⟨2⟩
     ⟨[("/pics/Screenshot_T.png", 7), ("/tmp/s.png", 7)],
      [("/pics", 1), ("/tmp/s.png", 2)], ["/pics"], [], ["/tmp/s.png"]⟩
     rfl rfl (by decide) rfl rfl,
   (c6_failure_context_labels "/pics" "/tmp/s.png" ⟨some "/pics", "T"⟩
      ⟨[], [("/pics", 1), ("/tmp/s.png", 1)], ["/pics"], [], []⟩).2.2.2.2.1
     .notFound ⟨1⟩ ⟨1⟩ rfl rfl rfl rfl⟩

/-- Claim C7: user cancellation of the portal request yields a "cancelled"
outcome distinct from every error outcome — the cancellation predicate
holds exactly on the wrapped portal-cancellation error, a cancelled run is
reported through the neutral "Screenshot cancelled" summary with an empty
body, every non-cancelled error is reported through the "Screenshot failed"
path, and the cancellation summary differs from both the failure and the
success summaries. -/
theorem c7_cancellation_distinct (args : Args) (env : Env) (fs : FsState)
    (nr : Except ZbusError Unit) (pd : Option Path)
    (hres : resolvePictureDir args env fs = .ok pd) :
    (mainRun args env (.error .cancelled) fs nr).summary =
      "Screenshot cancelled" ∧
    (mainRun args env (.error .cancelled) fs nr).body = "" ∧
    (∀ e : Error, e.cancelled = true ↔ e = .ashpd .cancelled) ∧
    (∀ e : Error, e.cancelled = false →
      reportOutcome (.error e) = ("Screenshot failed", e.to_user_facing)) ∧
    (∀ e : Error, e.cancelled = true →
      reportOutcome (.error e) = ("Screenshot cancelled", "")) ∧
    ("Screenshot cancelled" : String) ≠ "Screenshot failed" ∧
    ("Screenshot cancelled" : String) ≠ "Screenshot captured" := by
  refine ⟨?_, ?_, ?_, ?_, ?_, by decide, by decide⟩
  · simp [mainRun, request_screenshot, hres, reportOutcome, Error.cancelled]
  · simp [mainRun, request_screenshot, hres, reportOutcome, Error.cancelled]
  · intro e
    cases e with
    | ashpd a => cases a <;> simp [Error.cancelled]
    | notify _ => simp [Error.cancelled]
    | missingSaveDirectory _ => simp [Error.cancelled]
    | saveScreenshot _ _ => simp [Error.cancelled]
  · intro e he
    simp [reportOutcome, he]
  · intro e he
    simp [reportOutcome, he]

theorem c7_cancellation_distinct_witness :
    resolvePictureDir ⟨true, true, true, none⟩ ⟨none, "T"⟩ ⟨[], [], [], [], []⟩ =
      .ok none ∧
    ((mainRun ⟨true, true, true, none⟩ ⟨none, "T"⟩ (.error .cancelled)
        ⟨[], [], [], [], []⟩ (.ok ())).summary = "Screenshot cancelled" ∧
     (mainRun ⟨true, true, true, none⟩ ⟨none, "T"⟩ (.error .cancelled)
        ⟨[], [], [], [], []⟩ (.ok ())).body = "" ∧
     reportOutcome (.error (.saveScreenshot .notFound "copying screenshot")) =
       ("Screenshot failed",
        Error.to_user_facing
          (.saveScreenshot .notFound "copying screenshot"))) :=
  ⟨rfl,
   (c7_cancellation_distinct ⟨true, true, true, none⟩ ⟨none, "T"⟩
      ⟨[], [], [], [], []⟩ (.ok ()) none rfl).1,
   (c7_cancellation_distinct ⟨true, true, true, none⟩ ⟨none, "T"⟩
      ⟨[], [], [], [], []⟩ (.ok ()) none rfl).2.1,
   (c7_cancellation_distinct ⟨true, true, true, none⟩ ⟨none, "T"⟩
      ⟨[], [], [], [], []⟩ (.ok ()) none rfl).2.2.2.1
     (.saveScreenshot .notFound "copying screenshot") rfl⟩

/-- Claim C8: for every outcome of the screenshot request and of the
notification call, `main` terminates normally with exit status 0; the
reported summary, body, final state, relocation trace and notification are
independent of the notification call's outcome (a notification failure is
only logged); and when `--notify` is enabled and the request fails with a
non-cancelled error, that error is surfaced as the failure notification. -/
theorem c8_exit_status_and_notification (args : Args) (env : Env)
    (portal : Except AshpdError Uri) (fs : FsState)
    (nr nr2 : Except ZbusError Unit) :
    (mainRun args env portal fs nr).exitCode = 0 ∧
    (mainRun args env portal fs nr).summary =
      (mainRun args env portal fs nr2).summary ∧
    (mainRun args env portal fs nr).body =
      (mainRun args env portal fs nr2).body ∧
    (mainRun args env portal fs nr).finalFs =
      (mainRun args env portal fs nr2).finalFs ∧
    (mainRun args env portal fs nr).opsTrace =
      (mainRun args env portal fs nr2).opsTrace ∧
    (mainRun args env portal fs nr).notification =
      (mainRun args env portal fs nr2).notification ∧
    (∀ e : Error, args.notify = true →
      (request_screenshot args env portal fs).1 = .error e →
      e.cancelled = false →
      (mainRun args env portal fs nr).notification =
        some ("Screenshot failed", e.to_user_facing)) := by
  refine ⟨rfl, rfl, rfl, rfl, rfl, rfl, ?_⟩
  intro e hn hr hc
  simp [mainRun, hr, hn, reportOutcome, hc]

theorem c8_exit_status_and_notification_witness :
    (mainRun ⟨true, true, true, none⟩ ⟨none, "T"⟩ (.error (.other 3))
        ⟨[], [], [], [], []⟩ (.error (.other 4))).exitCode = 0 ∧
    (request_screenshot ⟨true, true, true, none⟩ ⟨none, "T"⟩ (.error (.other 3))
        ⟨[], [], [], [], []⟩).1 = .error (.ashpd (.other 3)) ∧
    (mainRun ⟨true, true, true, none⟩ ⟨none, "T"⟩ (.error (.other 3))
        ⟨[], [], [], [], []⟩ (.error (.other 4))).notification =
      some ("Screenshot failed",
        Error.to_user_facing (.ashpd (.other 3))) :=
  ⟨(c8_exit_status_and_notification ⟨true, true, true, none⟩ ⟨none, "T"⟩
      (.error (.other 3)) ⟨[], [], [], [], []⟩ (.error (.other 4))
      (.ok ())).1,
   rfl,
   (c8_exit_status_and_notification ⟨true, true, true, none⟩ ⟨none, "T"⟩
      (.error (.other 3)) ⟨[], [], [], [], []⟩ (.error (.other 4))
      (.ok ())).2.2.2.2.2.2 (.ashpd (.other 3)) rfl rfl rfl⟩

end CosmicScreenshot
